import Mathlib

/-!
Shallow embedding of the Weathergraph repository (weather_api/api_client.py,
utils/url_builder.py, data_manager/data_getter.py, data_manager/data_saver.py)
together with theorems settling the behavioural claims about it.

Python values returned by `response.json()` are modelled by the inductive
type `Json`; Python exceptions are modelled by the explicit error type
`PyErr` and fallible operations return `Except PyErr _`.  JSON numbers are
carried as rationals; the parser only moves them around, never computes
with them.
-/

namespace Weathergraph

/-- A JSON value as produced by Python's `json` decoding: `null` is Python
`None`, objects are insertion-ordered string-keyed dictionaries. -/
inductive Json : Type where
  | null : Json
  | bool (b : Bool) : Json
  | num (q : ℚ) : Json
  | str (s : String) : Json
  | arr (items : List Json) : Json
  | obj (fields : List (String × Json)) : Json

/-- Python exceptions that the embedded code can raise, carrying their
message. -/
inductive PyErr : Type where
  | valueError (msg : String)
  | typeError (msg : String)
  | attributeError (msg : String)
  | indexError (msg : String)
  | keyError (msg : String)
  | runtimeError (msg : String)
deriving DecidableEq, Repr

/-- First-match lookup in a JSON object's field list (a Python `dict`
built by `json.loads` has unique keys, so first match is the match). -/
def jsonLookup (fields : List (String × Json)) (k : String) : Option Json :=
  (fields.find? (fun p => p.1 == k)).map Prod.snd

/-- Python `d.get(k, default)`: on a dict, the value at `k` or `default`;
on any non-dict value it raises `AttributeError` (`.get` does not exist). -/
def dictGet (d : Json) (k : String) (default : Json) : Except PyErr Json :=
  match d with
  | .obj fields => .ok ((jsonLookup fields k).getD default)
  | _ => .error (.attributeError "object has no attribute get")

/-- Python `d.get(k)` (no default): missing key yields `None`. -/
def dictGetNone (d : Json) (k : String) : Except PyErr Json :=
  match d with
  | .obj fields => .ok ((jsonLookup fields k).getD .null)
  | _ => .error (.attributeError "object has no attribute get")

/-- Python subscript `x[0]`: head of a non-empty list, first character of
a non-empty string; `IndexError` on an empty list or string, `KeyError`
on a dict without key `0`, `TypeError` on non-subscriptable values. -/
def subscriptZero : Json → Except PyErr Json
  | .arr (x :: _) => .ok x
  | .arr [] => .error (.indexError "list index out of range")
  | .str s =>
    match s.data with
    | c :: _ => .ok (.str (String.mk [c]))
    | [] => .error (.indexError "string index out of range")
  | .obj _ => .error (.keyError "0")
  | .null => .error (.typeError "object is not subscriptable")
  | .bool _ => .error (.typeError "object is not subscriptable")
  | .num _ => .error (.typeError "object is not subscriptable")

/-- `APIParser.parse_weather` (src/weather_api/api_client.py, lines 75-93):
reads `current_weather` and `daily` with `{}` defaults, then builds the list
`[current.get("temperature"), daily.get("temperature_2m_min", [None])[0],
daily.get("temperature_2m_max", [None])[0], daily.get("time", [None])[0]]`,
evaluated left to right. -/
def parse_weather (data : Json) : Except PyErr (List Json) := do
  let current ← dictGet data "current_weather" (.obj [])
  let daily ← dictGet data "daily" (.obj [])
  let t ← dictGetNone current "temperature"
  let mn ← subscriptZero (← dictGet daily "temperature_2m_min" (.arr [.null]))
  let mx ← subscriptZero (← dictGet daily "temperature_2m_max" (.arr [.null]))
  let dt ← subscriptZero (← dictGet daily "time" (.arr [.null]))
  pure [t, mn, mx, dt]

/-- Spec-side lookup: a field of a JSON value, `none` when the value is
not an object or lacks the key (the spec treats both as "missing"). -/
def specLookup (d : Json) (k : String) : Option Json :=
  match d with
  | .obj fields => jsonLookup fields k
  | _ => none

/-- Spec-side description of the current temperature (spec section 4.4):
`doc.current_weather.temperature`, absent (`null`) if missing. -/
def specCurrentTemp (d : Json) : Json :=
  match specLookup d "current_weather" with
  | some cw => (specLookup cw "temperature").getD .null
  | none => .null

/-- Spec-side description of the daily fields (spec section 4.4): first
element of `doc.daily.<k>`, absent (`null`) if the array is missing or
empty. -/
def specFirstOfDaily (d : Json) (k : String) : Json :=
  match specLookup d "daily" with
  | some daily =>
    match specLookup daily k with
    | some (.arr (x :: _)) => x
    | _ => .null
  | none => .null

/-- Spec-side description of `parse` (spec section 4.4): the 4-tuple
(current temperature, daily min, daily max, date), each absent when
missing, never failing. -/
def specParseWeather (d : Json) : List Json :=
  [specCurrentTemp d,
   specFirstOfDaily d "temperature_2m_min",
   specFirstOfDaily d "temperature_2m_max",
   specFirstOfDaily d "time"]

/-- Tests that an optional member, when present, is an object. -/
def isObjOpt : Option Json → Bool
  | none => true
  | some (.obj _) => true
  | some _ => false

/-- Tests that an optional member, when present, is a non-empty array. -/
def isNonemptyArrOpt : Option Json → Bool
  | none => true
  | some (.arr (_ :: _)) => true
  | some _ => false

/-- Documents on which the parser's defensive reads all succeed: the
document is an object, its `current_weather` and `daily` members (when
present) are objects, and the daily arrays (when present) are non-empty
arrays. -/
def parseTolerant (d : Json) : Bool :=
  (match d with | .obj _ => true | _ => false) &&
  isObjOpt (specLookup d "current_weather") &&
  (match specLookup d "daily" with
   | some (.obj dl) =>
     isNonemptyArrOpt (jsonLookup dl "temperature_2m_min") &&
     isNonemptyArrOpt (jsonLookup dl "temperature_2m_max") &&
     isNonemptyArrOpt (jsonLookup dl "time")
   | some _ => false
   | none => true)

/-! ## Workbook model

A worksheet cell either holds a value (string or number) or is empty
(Python `None`).  A sheet is the ordered list of its rows, row `i`
(1-indexed) being the list entry at index `i - 1`; openpyxl reports
`max_row`/`max_column` of at least 1 even for an empty sheet, and both
`ws[1]` and `iter_rows` yield rows padded with empty cells to the
sheet-wide column count. -/

/-- A non-empty cell value. -/
inductive CellVal : Type where
  | str (s : String) : CellVal
  | num (q : ℚ) : CellVal
deriving DecidableEq, Repr

/-- A cell: `none` is an empty cell (Python `None`). -/
abbrev Cell : Type := Option CellVal

/-- A sheet: the list of its rows, each a list of cells. -/
abbrev Sheet : Type := List (List Cell)

/-- A header-keyed row mapping, as produced by Python `dict(zip(...))`:
an insertion-ordered association list with unique keys. -/
abbrev PyDict : Type := List (String × Cell)

/-- openpyxl `ws.max_row`: number of rows, at least 1. -/
def maxRow (s : Sheet) : Nat := max 1 s.length

/-- openpyxl `ws.max_column`: the widest row's cell count, at least 1. -/
def maxCol (s : Sheet) : Nat :=
  max 1 (s.foldr (fun r acc => max r.length acc) 0)

/-- Pad a row with empty cells up to width `w` (openpyxl materialises
missing cells as `EmptyCell`, whose value is `None`). -/
def padRow (r : List Cell) (w : Nat) : List Cell :=
  r ++ List.replicate (w - r.length) none

/-- openpyxl `ws.iter_rows(min_row := a, max_row := b, values_only := True)`:
the rows at 1-indexed positions `a..b`, each padded to the sheet width. -/
def iterRows (s : Sheet) (a b : Nat) : List (List Cell) :=
  ((s.take b).drop (a - 1)).map (fun r => padRow r (maxCol s))

/-- Python `str(cell.value)` for the cell values the model carries. -/
def pyStr (v : CellVal) : String :=
  match v with
  | .str s => s
  | .num q => toString q

/-- Header cell rendering in `DataGetter._get_headers`:
`str(cell.value) if cell.value is not None else ""`. -/
def cellStr (c : Cell) : String :=
  match c with
  | some v => pyStr v
  | none => ""

/-- Python `dict` insertion of one key/value pair: an existing key keeps
its position and gets the new value, a new key is appended. -/
def insertKV (acc : List (String × Cell)) (kv : String × Cell) :
    List (String × Cell) :=
  if acc.any (fun p => p.1 == kv.1) then
    acc.map (fun p => if p.1 == kv.1 then kv else p)
  else acc ++ [kv]

/-- Python `dict(pairs)`: insert the pairs left to right. -/
def pyDict (l : List (String × Cell)) : List (String × Cell) :=
  l.foldl insertKV []

/-- The spec's error names for the Python exceptions the data layer
raises: `InvalidArgumentError` is the `ValueError` of a bad row count. -/
def InvalidArgumentError : PyErr :=
  .valueError "n_rows must be a positive integer."

/-- `SchemaMismatchError`: the `ValueError` of a row/header length
mismatch in `DataGetter._rows_to_dicts`. -/
def SchemaMismatchError : PyErr :=
  .valueError "Row length does not match header length."

/-- `NotLoadedError`: the `RuntimeError` of reading before `open`. -/
def NotLoadedError : PyErr := .runtimeError "Workbook is not loaded."

/-- `InvalidRowError`: the `ValueError` of an empty or non-sequence row
in `DataSaver._validate_row`, carrying the offending type's name. -/
def InvalidRowError (typeName : String) : PyErr :=
  .valueError ("Row must be a non-empty list or tuple, got " ++ typeName)

/-- A workbook: its named sheets in order; the active sheet is the
first one. -/
structure Workbook : Type where
  sheets : List (String × Sheet)

/-- openpyxl `wb.active`: the first sheet, if any. -/
def Workbook.activeSheet (wb : Workbook) : Option Sheet :=
  wb.sheets.head?.map Prod.snd

/-- openpyxl `wb[name]` resolution: the first sheet with that name. -/
def Workbook.bySheetName (wb : Workbook) (n : String) : Option Sheet :=
  (wb.sheets.find? (fun p => p.1 == n)).map Prod.snd

/-- `DataGetter` state (src/data_manager/data_getter.py): the file's
contents on disk, and the loaded workbook (`None` before `open_file`). -/
structure DataGetter : Type where
  fileContents : Workbook
  workbook : Option Workbook

/-- `DataGetter.open_file` (lines 49-63): load the workbook only when
none is loaded yet. -/
def open_file (g : DataGetter) : DataGetter :=
  match g.workbook with
  | none => { g with workbook := some g.fileContents }
  | some _ => g

/-- `DataGetter.close_file` (lines 65-72). -/
def close_file (g : DataGetter) : DataGetter :=
  { g with workbook := none }

/-- `DataGetter.get_sheet` (lines 74-93): `RuntimeError` when no workbook
is loaded; a truthy name is looked up (openpyxl raises `KeyError` when
absent), otherwise the active sheet is used, `ValueError` when that is
`None`. -/
def get_sheet (g : DataGetter) (sheetName : Option String) :
    Except PyErr Sheet :=
  match g.workbook with
  | none => .error NotLoadedError
  | some wb =>
    match sheetName with
    | some n =>
      if n = "" then
        match wb.activeSheet with
        | some s => .ok s
        | none => .error (.valueError "Sheet not found in workbook.")
      else
        match wb.bySheetName n with
        | some s => .ok s
        | none => .error (.keyError ("Worksheet " ++ n ++ " does not exist."))
    | none =>
      match wb.activeSheet with
      | some s => .ok s
      | none => .error (.valueError "Sheet not found in workbook.")

/-- The header list read from row 1 of a sheet, padded to the sheet
width, empty cells becoming `""`. -/
def headerRow (s : Sheet) : List String :=
  (padRow (s.headD []) (maxCol s)).map cellStr

/-- `DataGetter._get_headers` (lines 95-111): `ws[1]` rendered with
`str(cell.value) if cell.value is not None else ""`. -/
def get_headers (g : DataGetter) (sheet : Option String) :
    Except PyErr (List String) :=
  (get_sheet g sheet).map headerRow

/-- `DataGetter._get_top_rows` (lines 113-136): `ValueError` when
`n_rows < 1`, else the rows from `iter_rows(min_row := 2,
max_row := min(n_rows + 1, ws.max_row))`. -/
def get_top_rows (g : DataGetter) (nRows : Int) (sheet : Option String) :
    Except PyErr (List (List Cell)) :=
  if nRows < 1 then .error InvalidArgumentError
  else
    (get_sheet g sheet).map fun s =>
      iterRows s 2 (min (nRows + 1) (maxRow s : Int)).toNat

/-- `DataGetter._get_bottom_rows` (lines 138-162): `ValueError` when
`n_rows < 1`, else the rows from `iter_rows(min_row := max(2,
ws.max_row - n_rows + 1), max_row := ws.max_row)`. -/
def get_bottom_rows (g : DataGetter) (nRows : Int) (sheet : Option String) :
    Except PyErr (List (List Cell)) :=
  if nRows < 1 then .error InvalidArgumentError
  else
    (get_sheet g sheet).map fun s =>
      iterRows s (max 2 ((maxRow s : Int) - nRows + 1)).toNat (maxRow s)

/-- `DataGetter._rows_to_dicts` (lines 164-184): `ValueError` at the
first row whose length differs from the header length, otherwise
`dict(zip(headers, row))` for each row in order. -/
def rows_to_dicts (rows : List (List Cell)) (headers : List String) :
    Except PyErr (List PyDict) :=
  match rows with
  | [] => .ok []
  | r :: rest =>
    if r.length ≠ headers.length then .error SchemaMismatchError
    else do
      let ds ← rows_to_dicts rest headers
      pure (pyDict (headers.zip r) :: ds)

/-- `DataGetter.get_data` (lines 186-203): headers first, then top or
bottom rows, then the dictionary conversion. -/
def get_data (g : DataGetter) (nRows : Int) (fromTop : Bool)
    (sheet : Option String) : Except PyErr (List PyDict) := do
  let headers ← get_headers g sheet
  let rows ←
    if fromTop then get_top_rows g nRows sheet
    else get_bottom_rows g nRows sheet
  rows_to_dicts rows headers

/-- `DataGetter.get_all_data` (lines 205-218): headers, then
`_get_top_rows(ws.max_row - 1)`, then the dictionary conversion. -/
def get_all_data (g : DataGetter) (sheet : Option String) :
    Except PyErr (List PyDict) := do
  let headers ← get_headers g sheet
  let s ← get_sheet g sheet
  let rows ← get_top_rows g ((maxRow s : Int) - 1) sheet
  rows_to_dicts rows headers

/-! ## Writer model -/

/-- A value passed to the Writer as one "row": either an actual Python
list/tuple of cells, or some other object (only its type name matters
to validation). -/
inductive PyRow : Type where
  | seq (cells : List Cell) : PyRow
  | other (typeName : String) : PyRow

/-- The cells of a row value (meaningful only for sequences). -/
def rowCells : PyRow → List Cell
  | .seq cells => cells
  | .other _ => []

/-- `DataSaver._validate_row` (src/data_manager/data_saver.py, lines
112-125): `ValueError` unless the row is a non-empty list or tuple. -/
def validate_row : PyRow → Option PyErr
  | .seq [] => some (InvalidRowError "list")
  | .seq (_ :: _) => none
  | .other t => some (InvalidRowError t)

/-- `DataSaver` state: the in-memory worksheet it appends to, and the
sheet stored in the file on disk (single-sheet workbook model, matching
the default-sheet usage of every claim). -/
structure DataSaver : Type where
  ws : Sheet
  fileOnDisk : Sheet

/-- `DataSaver._save_workbook` (lines 127-137): persist the in-memory
workbook to disk. -/
def save_workbook (st : DataSaver) : DataSaver :=
  { st with fileOnDisk := st.ws }

/-- `DataSaver.save_rows` (lines 80-95): validate and append each row in
order — stopping, appended rows kept and nothing saved, at the first
invalid one — then persist once at the end. -/
def save_rows : DataSaver → List PyRow → DataSaver × Option PyErr
  | st, [] => (save_workbook st, none)
  | st, r :: rest =>
    match validate_row r with
    | some e => (st, some e)
    | none => save_rows { st with ws := st.ws ++ [rowCells r] } rest

/-- `DataSaver.save_data` (lines 97-110): validate and append a single
row, then persist. -/
def save_data (st : DataSaver) (r : PyRow) : DataSaver × Option PyErr :=
  match validate_row r with
  | some e => (st, some e)
  | none => (save_workbook { st with ws := st.ws ++ [rowCells r] }, none)

/-- A one-sheet workbook, as created by
`utils/file_initializer.ensure_file_exists`. -/
def wbOf (s : Sheet) : Workbook := ⟨[("Sheet", s)]⟩

/-- A `DataGetter` freshly constructed on a one-sheet workbook file and
opened with `open_file`. -/
def loadedOn (s : Sheet) : DataGetter :=
  open_file { fileContents := wbOf s, workbook := none }

/-- The header sheet that `ensure_file_exists`
(src/utils/file_initializer.py) writes into a fresh workbook. -/
def defaultSheet : Sheet :=
  [[some (.str "current_temp"), some (.str "min_temp"),
    some (.str "max_temp"), some (.str "date")]]

/-! ## URL builder model (src/utils/url_builder.py) -/

/-- Characters Python's `urllib.parse.quote_plus` leaves unencoded
(`ALWAYS_SAFE`): ASCII letters, digits, and `_.-~`. -/
def alwaysSafe (c : Char) : Bool :=
  c.isAlpha || c.isDigit || c = '_' || c = '.' || c = '-' || c = '~'

/-- Uppercase hexadecimal digit for a value below 16. -/
def hexDigitU (n : Nat) : Char :=
  if n < 10 then Char.ofNat ('0'.toNat + n) else Char.ofNat ('A'.toNat + (n - 10))

/-- `quote_plus` on one character: safe characters pass through, a space
becomes `+`, anything else becomes `%HH` (byte semantics; the embedding
covers the ASCII inputs the builder receives). -/
def quoteChar (c : Char) : List Char :=
  if alwaysSafe c then [c]
  else if c = ' ' then ['+']
  else ['%', hexDigitU (c.toNat / 16), hexDigitU (c.toNat % 16)]

/-- Python `urllib.parse.quote_plus` over a string's characters. -/
def quotePlus : List Char → List Char
  | [] => []
  | c :: cs => quoteChar c ++ quotePlus cs

/-- One `key=value` component of `urlencode`. -/
def encPair (k v : List Char) : List Char :=
  quotePlus k ++ '=' :: quotePlus v

/-- Python `urllib.parse.urlencode`: `key=value` components joined
with `&`, in insertion order. -/
def urlencode : List (List Char × List Char) → List Char
  | [] => []
  | [p] => encPair p.1 p.2
  | p :: q :: rest => encPair p.1 p.2 ++ '&' :: urlencode (q :: rest)

/-- The parameter dict of `build_openmeteo_url`
(src/utils/url_builder.py, lines 39-45), in insertion order, with the
latitude/longitude already rendered to their `str()` form. -/
def openmeteoParams (latS lonS : String) : List (List Char × List Char) :=
  [("latitude".data, latS.data),
   ("longitude".data, lonS.data),
   ("current_weather".data, "true".data),
   ("daily".data, "temperature_2m_min,temperature_2m_max".data),
   ("timezone".data, "auto".data)]

/-- The query string `urlencode(params)` of `build_openmeteo_url`. -/
def buildQuery (latS lonS : String) : List Char :=
  urlencode (openmeteoParams latS lonS)

/-- `build_openmeteo_url` (src/utils/url_builder.py, lines 18-46). -/
def build_openmeteo_url (latS lonS : String) : String :=
  "https://api.open-meteo.com/v1/forecast?" ++ String.mk (buildQuery latS lonS)

/-- Hexadecimal digit test, as `int(c, 16)` accepts. -/
def isHexDigit (c : Char) : Bool :=
  c.isDigit || ('A' ≤ c && c ≤ 'F') || ('a' ≤ c && c ≤ 'f')

/-- Value of a hexadecimal digit. -/
def hexVal (c : Char) : Nat :=
  if c.isDigit then c.toNat - '0'.toNat
  else if 'a' ≤ c then c.toNat - 'a'.toNat + 10
  else c.toNat - 'A'.toNat + 10

/-- Spec-side decoder `urllib.parse.unquote_plus`: `+` becomes a space,
`%HH` becomes the character with that code, anything else passes
through. -/
def unquotePlus : List Char → List Char
  | [] => []
  | c :: cs =>
    if c = '+' then ' ' :: unquotePlus cs
    else if c = '%' then
      match cs with
      | h :: l :: rest =>
        if isHexDigit h && isHexDigit l then
          Char.ofNat (16 * hexVal h + hexVal l) :: unquotePlus rest
        else c :: unquotePlus (h :: l :: rest)
      | [x] => c :: unquotePlus [x]
      | [] => c :: unquotePlus []
    else c :: unquotePlus cs
termination_by l => l.length
decreasing_by all_goals simp <;> omega

/-- Split on every occurrence of a separator character. -/
def splitOnSep (sep : Char) : List Char → List (List Char)
  | [] => [[]]
  | c :: cs =>
    if c = sep then [] :: splitOnSep sep cs
    else
      match splitOnSep sep cs with
      | [] => [[c]]
      | h :: t => (c :: h) :: t

/-- Split at the first occurrence of a separator character, as
`str.split(sep, 1)` does for a `key=value` component. -/
def splitFirst (sep : Char) : List Char → List Char × List Char
  | [] => ([], [])
  | c :: cs =>
    if c = sep then ([], cs)
    else ((splitFirst sep cs).1.cons c, (splitFirst sep cs).2)

/-- Spec-side decoding of one `key=value` component. -/
def decodeQueryPair (kv : List Char) : List Char × List Char :=
  (unquotePlus (splitFirst '=' kv).1, unquotePlus (splitFirst '=' kv).2)

/-- Spec-side decoding of a whole query string, as `parse_qsl` does. -/
def decodeQuery (q : List Char) : List (List Char × List Char) :=
  (splitOnSep '&' q).map decodeQueryPair

/-- A demonstration sheet: the default header plus five data rows, whose
first cell names the 1-indexed sheet row each one occupies (rows 2-6). -/
def demoSheet : Sheet :=
  defaultSheet ++ [[some (.str "r2")], [some (.str "r3")], [some (.str "r4")],
    [some (.str "r5")], [some (.str "r6")]]

/-- A sheet holding only a header row. -/
def headerOnly : Sheet := [[some (.str "h1"), some (.str "h2")]]

/-! ## Helper lemmas about the workbook model -/

theorem foldr_max_base (u : List (List Cell)) (b : Nat) :
    u.foldr (fun r acc => max r.length acc) b =
      max (u.foldr (fun r acc => max r.length acc) 0) b := by
  induction u with
  | nil => simp
  | cons r u ih => simp [ih, Nat.max_assoc]

theorem maxCol_append (u v : Sheet) :
    maxCol (u ++ v) = max (maxCol u) (maxCol v) := by
  unfold maxCol
  rw [List.foldr_append, foldr_max_base]
  omega

theorem mem_le_maxCol {s : Sheet} {r : List Cell} (h : r ∈ s) :
    r.length ≤ maxCol s := by
  unfold maxCol
  induction s with
  | nil => simp at h
  | cons a s ih =>
    rcases List.mem_cons.mp h with h' | h'
    · subst h'; simp
    · have := ih h'
      simp only [List.foldr_cons]
      omega

theorem length_padRow (r : List Cell) (w : Nat) :
    (padRow r w).length = max r.length w := by
  simp [padRow]; omega

theorem padRow_eq_self {r : List Cell} {w : Nat} (h : w ≤ r.length) :
    padRow r w = r := by
  simp [padRow, Nat.sub_eq_zero_of_le h]

theorem headerRow_length (s : Sheet) : (headerRow s).length = maxCol s := by
  unfold headerRow
  rw [List.length_map, length_padRow]
  rcases s with _ | ⟨a, s⟩
  · simp [maxCol]
  · have : a.length ≤ maxCol (a :: s) := mem_le_maxCol (by simp)
    simp [List.headD]
    omega

theorem insertKV_foldl_nodup (l : List (String × Cell)) :
    ∀ acc : List (String × Cell),
      ((acc ++ l).map Prod.fst).Nodup →
      l.foldl insertKV acc = acc ++ l := by
  induction l with
  | nil => intro acc _; simp
  | cons kv rest ih =>
    intro acc hnd
    have hk : ¬ (kv.1 ∈ acc.map Prod.fst) := by
      intro hmem
      have : (acc.map Prod.fst ++ kv.1 :: rest.map Prod.fst).Nodup := by
        simpa using hnd
      rcases List.nodup_append.mp this with ⟨_, _, hdisj⟩
      exact hdisj hmem (by simp)
    have hany : acc.any (fun p => p.1 == kv.1) = false := by
      rw [List.any_eq_false]
      intro p hp
      simp only [beq_iff_eq]
      intro hpe
      exact hk (by exact List.mem_map.mpr ⟨p, hp, hpe⟩)
    have step : insertKV acc kv = acc ++ [kv] := by
      simp [insertKV, hany]
    rw [List.foldl_cons, step]
    have := ih (acc ++ [kv]) (by simpa using hnd)
    rw [this]
    simp

theorem pyDict_of_nodup {l : List (String × Cell)}
    (h : (l.map Prod.fst).Nodup) : pyDict l = l := by
  have := insertKV_foldl_nodup l [] (by simpa using h)
  simpa [pyDict] using this

theorem rows_to_dicts_ok {rows : List (List Cell)} {headers : List String}
    (h : ∀ r ∈ rows, r.length = headers.length) :
    rows_to_dicts rows headers =
      .ok (rows.map (fun r => pyDict (headers.zip r))) := by
  induction rows with
  | nil => rfl
  | cons r rest ih =>
    have hr : r.length = headers.length := h r (by simp)
    rw [rows_to_dicts]
    simp only [hr]
    rw [ih (fun r hm => h r (by simp [hm]))]
    simp

theorem iterRows_eq_range {s : Sheet} {a b : Nat} (ha : 1 ≤ a)
    (hb : b ≤ s.length) :
    iterRows s a b =
      (List.range' a (b + 1 - a)).map
        (fun i => padRow (s.getD (i - 1) []) (maxCol s)) := by
  apply List.ext_getElem
  · simp [iterRows]
    omega
  · intro i h1 h2
    simp only [iterRows, List.getElem_map]
    have hi : i < b - (a - 1) := by
      have h1' := h1
      simp [iterRows] at h1'
      omega
    congr 1
    rw [List.getElem_drop, List.getElem_take, List.getElem_range']
    rw [List.getD_eq_getElem s [] (show a + 1 * i - 1 < s.length by omega)]
    congr 1
    omega

/-! ## Reduction lemmas for the embedded monadic code -/

@[simp] theorem okBind {α β : Type} (a : α) (f : α → Except PyErr β) :
    (Except.ok a : Except PyErr α) >>= f = f a := rfl

@[simp] theorem errBind {α β : Type} (e : PyErr) (f : α → Except PyErr β) :
    (Except.error e : Except PyErr α) >>= f = .error e := rfl

@[simp] theorem purePyErr {α : Type} (a : α) :
    (pure a : Except PyErr α) = .ok a := rfl

@[simp] theorem mapOk {α β : Type} (f : α → β) (a : α) :
    Except.map f (Except.ok a : Except PyErr α) = .ok (f a) := rfl

@[simp] theorem mapErr {α β : Type} (f : α → β) (e : PyErr) :
    Except.map f (Except.error e : Except PyErr α) = .error e := rfl

@[simp] theorem get_sheet_loadedOn (s : Sheet) :
    get_sheet (loadedOn s) none = .ok s := rfl

@[simp] theorem get_headers_loadedOn (s : Sheet) :
    get_headers (loadedOn s) none = .ok (headerRow s) := rfl

theorem jsonLookup_nil (k : String) : jsonLookup [] k = none := rfl

theorem isObjOpt_iff (o : Option Json) :
    isObjOpt o = true ↔ o = none ∨ ∃ f, o = some (.obj f) := by
  rcases o with _ | v
  · simp [isObjOpt]
  · rcases v with _ | b | q | s | items | f <;> simp [isObjOpt]

theorem isNonemptyArrOpt_iff (o : Option Json) :
    isNonemptyArrOpt o = true ↔
      o = none ∨ ∃ x xs, o = some (.arr (x :: xs)) := by
  rcases o with _ | v
  · simp [isNonemptyArrOpt]
  · rcases v with _ | b | q | s | items | f <;> simp [isNonemptyArrOpt]
    rcases items with _ | ⟨x, xs⟩ <;> simp [isNonemptyArrOpt]

/-! ## Reader-layer lemmas -/

theorem foldr_len_le {u : Sheet} {c : Nat} (h : ∀ r ∈ u, r.length ≤ c) :
    u.foldr (fun r acc => max r.length acc) 0 ≤ c := by
  induction u with
  | nil => simp
  | cons a u ih =>
    have := h a (by simp)
    have := ih (fun r hr => h r (by simp [hr]))
    simp only [List.foldr_cons]
    omega

theorem iterRows_nil (a b : Nat) : iterRows [] a b = [] := by
  simp [iterRows]

theorem dicts_of_padded (s : Sheet) (l : List Nat) :
    rows_to_dicts (l.map (fun i => padRow (s.getD (i - 1) []) (maxCol s)))
        (headerRow s) =
      .ok (l.map (fun i =>
        pyDict ((headerRow s).zip (padRow (s.getD (i - 1) []) (maxCol s))))) := by
  rw [rows_to_dicts_ok, List.map_map]
  · rfl
  · intro r hr
    rcases List.mem_map.mp hr with ⟨i, _, rfl⟩
    rw [length_padRow, headerRow_length]
    rcases Nat.lt_or_ge (i - 1) s.length with hlt | hge
    · have hmem : s.getD (i - 1) [] ∈ s := by
        rw [List.getD_eq_getElem s [] hlt]
        exact List.getElem_mem hlt
      have := mem_le_maxCol hmem
      omega
    · rw [List.getD_eq_default s [] hge]
      simp [maxCol]

theorem get_data_lt_one (s : Sheet) (n : Int) (ft : Bool) (h : n < 1) :
    get_data (loadedOn s) n ft none = .error InvalidArgumentError := by
  cases ft <;>
    simp [get_data, get_top_rows, get_bottom_rows, h]

theorem get_top_ok (s : Sheet) (n : Int) (h : 1 ≤ n) :
    get_data (loadedOn s) n true none =
      .ok ((List.range' 2 ((min (n + 1) (maxRow s : Int)).toNat - 1)).map
        (fun i => pyDict ((headerRow s).zip
          (padRow (s.getD (i - 1) []) (maxCol s))))) := by
  have hn : ¬ n < 1 := by omega
  rcases s with _ | ⟨hd, tl⟩
  · have hmin : (min (n + 1) ((maxRow ([] : Sheet) : Nat) : Int)).toNat = 1 := by
      simp [maxRow]
      omega
    simp only [get_data, get_headers_loadedOn, okBind, if_true, get_top_rows,
      hn, if_false, ite_false, get_sheet_loadedOn, mapOk, iterRows_nil, hmin]
    rfl
  · have hb : (min (n + 1) ((maxRow (hd :: tl) : Nat) : Int)).toNat ≤
        (hd :: tl).length := by
      simp only [maxRow, List.length_cons]
      omega
    simp only [get_data, get_headers_loadedOn, okBind, if_true, get_top_rows,
      hn, if_false, ite_false, get_sheet_loadedOn, mapOk]
    rw [iterRows_eq_range (by omega) hb]
    have h21 : (min (n + 1) ((maxRow (hd :: tl) : Nat) : Int)).toNat + 1 - 2 =
        (min (n + 1) ((maxRow (hd :: tl) : Nat) : Int)).toNat - 1 := by omega
    rw [h21, dicts_of_padded]

theorem get_bottom_ok (s : Sheet) (n : Int) (h : 1 ≤ n) :
    get_data (loadedOn s) n false none =
      .ok ((List.range' (max 2 ((maxRow s : Int) - n + 1)).toNat
              (maxRow s + 1 - (max 2 ((maxRow s : Int) - n + 1)).toNat)).map
        (fun i => pyDict ((headerRow s).zip
          (padRow (s.getD (i - 1) []) (maxCol s))))) := by
  have hn : ¬ n < 1 := by omega
  rcases s with _ | ⟨hd, tl⟩
  · have h0 : maxRow ([] : Sheet) + 1 -
        (max 2 ((maxRow ([] : Sheet) : Int) - n + 1)).toNat = 0 := by
      simp only [maxRow, List.length_nil]
      omega
    simp only [get_data, get_headers_loadedOn, okBind, Bool.false_eq_true,
      if_false, ite_false, get_bottom_rows, hn, get_sheet_loadedOn, mapOk,
      iterRows_nil, h0]
    rfl
  · have ha : 1 ≤ (max 2 ((maxRow (hd :: tl) : Int) - n + 1)).toNat := by
      omega
    have hb : maxRow (hd :: tl) ≤ (hd :: tl).length := by
      simp only [maxRow, List.length_cons]
      omega
    simp only [get_data, get_headers_loadedOn, okBind, Bool.false_eq_true,
      if_false, ite_false, get_bottom_rows, hn, get_sheet_loadedOn, mapOk]
    rw [iterRows_eq_range ha hb, dicts_of_padded]

theorem get_all_two_le (s : Sheet) (h2 : 2 ≤ s.length) :
    get_all_data (loadedOn s) none =
      .ok ((s.drop 1).map
        (fun r => pyDict ((headerRow s).zip (padRow r (maxCol s))))) := by
  have hmr : maxRow s = s.length := by
    simp only [maxRow]
    omega
  have hn : ¬ ((maxRow s : Int) - 1 < 1) := by omega
  have hmin : (min ((maxRow s : Int) - 1 + 1) (maxRow s : Int)).toNat =
      s.length := by omega
  simp only [get_all_data, get_headers_loadedOn, okBind, get_sheet_loadedOn,
    get_top_rows, hn, if_false, ite_false, mapOk, hmin]
  have hiter : iterRows s 2 s.length =
      (s.drop 1).map (fun r => padRow r (maxCol s)) := by
    unfold iterRows
    rw [List.take_length]
  rw [hiter, rows_to_dicts_ok, List.map_map]
  · rfl
  · intro r hr
    rcases List.mem_map.mp hr with ⟨r', hr', rfl⟩
    have : r' ∈ s := List.mem_of_mem_drop hr'
    have := mem_le_maxCol this
    rw [length_padRow, headerRow_length]
    omega

/-! ## Writer-layer lemmas -/

theorem save_rows_valid_append (vs : List PyRow) :
    ∀ (st : DataSaver) (k : List PyRow), (∀ r ∈ vs, validate_row r = none) →
      save_rows st (vs ++ k) =
        save_rows { ws := st.ws ++ vs.map rowCells,
                    fileOnDisk := st.fileOnDisk } k := by
  induction vs with
  | nil => intro st k _; simp
  | cons v vs ih =>
    intro st k hv
    have hv0 : validate_row v = none := hv v (by simp)
    rw [List.cons_append, save_rows, hv0]
    rw [ih _ k (fun r hr => hv r (by simp [hr]))]
    simp

theorem headD_append {s : Sheet} (t : Sheet) (hs : s ≠ []) :
    (s ++ t).headD [] = s.headD [] := by
  rcases s with _ | ⟨a, s⟩
  · simp at hs
  · rfl

theorem maxCol_append_rows {s : Sheet} {rows : List (List Cell)}
    (hlen : ∀ r ∈ rows, r.length ≤ maxCol s) :
    maxCol (s ++ rows) = maxCol s := by
  rw [maxCol_append]
  have h1 : rows.foldr (fun r acc => max r.length acc) 0 ≤ maxCol s :=
    foldr_len_le hlen
  have h2 : 1 ≤ maxCol s := by simp [maxCol]
  simp only [maxCol] at *
  omega

theorem headerRow_append_rows {s : Sheet} {rows : List (List Cell)}
    (hs : s ≠ []) (hlen : ∀ r ∈ rows, r.length ≤ maxCol s) :
    headerRow (s ++ rows) = headerRow s := by
  unfold headerRow
  rw [headD_append rows hs, maxCol_append_rows hlen]

/-! ## URL encoding lemmas -/

theorem hexDigitU_facts :
    ∀ m < 16, isHexDigit (hexDigitU m) = true ∧ hexVal (hexDigitU m) = m ∧
      hexDigitU m ≠ '&' ∧ hexDigitU m ≠ '=' ∧ hexDigitU m ≠ '+' ∧
      hexDigitU m ≠ '%' := by decide

theorem alwaysSafe_not_reserved {c : Char} (h : alwaysSafe c = true) :
    c ≠ '&' ∧ c ≠ '=' ∧ c ≠ '+' ∧ c ≠ '%' ∧ c ≠ ' ' := by
  refine ⟨?_, ?_, ?_, ?_, ?_⟩ <;> (rintro rfl; revert h; decide)

theorem unquote_quoteChar {c : Char} (h : c.toNat < 128) (rest : List Char) :
    unquotePlus (quoteChar c ++ rest) = c :: unquotePlus rest := by
  by_cases h1 : alwaysSafe c = true
  · obtain ⟨_, _, hp, hpc, _⟩ := alwaysSafe_not_reserved h1
    have hq : quoteChar c = [c] := by simp [quoteChar, h1]
    rw [hq, List.singleton_append, unquotePlus.eq_def]
    simp [hp, hpc]
  · by_cases h2 : c = ' '
    · subst h2
      have hq : quoteChar ' ' = ['+'] := rfl
      rw [hq, List.singleton_append, unquotePlus.eq_def]
      simp
    · have hdiv : c.toNat / 16 < 16 := by omega
      have hmod : c.toNat % 16 < 16 := by omega
      obtain ⟨hx1, hv1, _, _, _, _⟩ := hexDigitU_facts _ hdiv
      obtain ⟨hx2, hv2, _, _, _, _⟩ := hexDigitU_facts _ hmod
      have hq : quoteChar c =
          ['%', hexDigitU (c.toNat / 16), hexDigitU (c.toNat % 16)] := by
        simp [quoteChar, h1, h2]
      rw [hq, List.cons_append, List.cons_append, List.singleton_append,
        unquotePlus.eq_def]
      simp only [reduceIte, hx1, hx2, Bool.and_self, if_true, hv1, hv2]
      rw [Nat.div_add_mod, Char.ofNat_toNat]
      rw [if_neg (by decide : ¬ ('%' = '+'))]

theorem unquote_quotePlus {s : List Char} (h : ∀ c ∈ s, c.toNat < 128) :
    unquotePlus (quotePlus s) = s := by
  induction s with
  | nil =>
    rw [quotePlus, unquotePlus.eq_def]
  | cons c cs ih =>
    rw [quotePlus, unquote_quoteChar (h c (by simp)),
      ih (fun x hx => h x (by simp [hx]))]

theorem mem_quoteChar_not_reserved {c x : Char} (hc : c.toNat < 128)
    (hx : x ∈ quoteChar c) : x ≠ '&' ∧ x ≠ '=' := by
  by_cases h1 : alwaysSafe c = true
  · have hq : quoteChar c = [c] := by simp [quoteChar, h1]
    rw [hq] at hx
    simp only [List.mem_singleton] at hx
    subst hx
    obtain ⟨ha, hb, _, _, _⟩ := alwaysSafe_not_reserved h1
    exact ⟨ha, hb⟩
  · by_cases h2 : c = ' '
    · subst h2
      have hq : quoteChar ' ' = ['+'] := rfl
      rw [hq] at hx
      simp only [List.mem_singleton] at hx
      subst hx
      exact ⟨by decide, by decide⟩
    · have hq : quoteChar c =
          ['%', hexDigitU (c.toNat / 16), hexDigitU (c.toNat % 16)] := by
        simp [quoteChar, h1, h2]
      rw [hq] at hx
      have hdiv : c.toNat / 16 < 16 := by omega
      have hmod : c.toNat % 16 < 16 := by omega
      obtain ⟨_, _, ha1, hb1, _, _⟩ := hexDigitU_facts _ hdiv
      obtain ⟨_, _, ha2, hb2, _, _⟩ := hexDigitU_facts _ hmod
      simp only [List.mem_cons, List.not_mem_nil, or_false] at hx
      rcases hx with rfl | rfl | rfl
      · exact ⟨by decide, by decide⟩
      · exact ⟨ha1, hb1⟩
      · exact ⟨ha2, hb2⟩

theorem notin_quotePlus {s : List Char} (h : ∀ c ∈ s, c.toNat < 128) :
    '&' ∉ quotePlus s ∧ '=' ∉ quotePlus s := by
  induction s with
  | nil => exact ⟨by simp [quotePlus], by simp [quotePlus]⟩
  | cons c cs ih =>
    obtain ⟨ih1, ih2⟩ := ih (fun x hx => h x (by simp [hx]))
    constructor <;>
    · rw [quotePlus]
      intro hmem
      rcases List.mem_append.mp hmem with hm | hm
      · have := mem_quoteChar_not_reserved (h c (by simp)) hm
        simp at this
      · first
        | exact ih1 hm
        | exact ih2 hm

theorem splitOnSep_of_not_mem {sep : Char} {xs : List Char} (h : sep ∉ xs) :
    splitOnSep sep xs = [xs] := by
  induction xs with
  | nil => rfl
  | cons c cs ih =>
    have hc : ¬ (c = sep) := fun he => h (by simp [he])
    rw [splitOnSep, if_neg hc, ih (fun hm => h (by simp [hm]))]

theorem splitOnSep_append {sep : Char} {xs : List Char} (h : sep ∉ xs)
    (ys : List Char) :
    splitOnSep sep (xs ++ sep :: ys) = xs :: splitOnSep sep ys := by
  induction xs with
  | nil =>
    simp only [List.nil_append]
    rw [splitOnSep, if_pos rfl]
  | cons c cs ih =>
    have hc : ¬ (c = sep) := fun he => h (by simp [he])
    rw [List.cons_append, splitOnSep, if_neg hc,
      ih (fun hm => h (by simp [hm]))]

theorem splitFirst_append {sep : Char} {k : List Char} (h : sep ∉ k)
    (v : List Char) :
    splitFirst sep (k ++ sep :: v) = (k, v) := by
  induction k with
  | nil =>
    simp only [List.nil_append]
    rw [splitFirst, if_pos rfl]
  | cons c cs ih =>
    have hc : ¬ (c = sep) := fun he => h (by simp [he])
    rw [List.cons_append, splitFirst, if_neg hc,
      ih (fun hm => h (by simp [hm]))]

theorem decodePair_enc {k v : List Char} (hk : ∀ c ∈ k, c.toNat < 128)
    (hv : ∀ c ∈ v, c.toNat < 128) :
    decodeQueryPair (encPair k v) = (k, v) := by
  unfold decodeQueryPair encPair
  rw [splitFirst_append (notin_quotePlus hk).2]
  simp only
  rw [unquote_quotePlus hk, unquote_quotePlus hv]

/-! ## Claim theorems

Each claim of the specification is settled by exactly one theorem below;
counterexample theorems exhibit the concrete inputs on which a claim, as
stated, fails, and witness theorems instantiate the hypotheses of the
proved statements on concrete data. -/

/-- C1 counterexample: the claim says a missing **or empty** daily array
becomes an absent field and `parse` never raises, but on
`{"daily": {"temperature_2m_min": []}}` the code evaluates `[][0]` (the
`[None]` default is only used when the key is missing) and raises
`IndexError`. -/
theorem parse_weather_empty_array_raises :
    parse_weather (.obj [("daily", .obj [("temperature_2m_min", .arr [])])]) =
      .error (.indexError "list index out of range") := rfl

/-- C1 (amended): for every JSON object whose `current_weather` and
`daily` members, when present, are objects, and whose daily
`temperature_2m_min`/`temperature_2m_max`/`time` members, when present,
are non-empty arrays, `parse` returns the 4-tuple described by the spec —
current temperature (absent when `current_weather` or its `temperature`
field is missing), first elements of the daily arrays and of `time`
(each absent when the key is missing) — without raising.  Outside these
conditions the code can raise (empty array: `IndexError`; non-object
member: `AttributeError`), contrary to the claim's "never raises". -/
theorem parse_weather_tolerant_refines_spec (d : Json)
    (h : parseTolerant d = true) :
    parse_weather d = .ok (specParseWeather d) := by
  cases d with
  | null => simp [parseTolerant] at h
  | bool b => simp [parseTolerant] at h
  | num q => simp [parseTolerant] at h
  | str s => simp [parseTolerant] at h
  | arr items => simp [parseTolerant] at h
  | obj fields =>
    simp only [parseTolerant, specLookup, Bool.true_and, Bool.and_eq_true] at h
    obtain ⟨hcw, hdl⟩ := h
    have hcw' := (isObjOpt_iff _).mp hcw
    rcases hd : jsonLookup fields "daily" with _ | dl
    · rcases hcw' with heq | ⟨cwf, heq⟩ <;>
        simp [parse_weather, dictGet, dictGetNone, heq, hd, specParseWeather,
          specCurrentTemp, specFirstOfDaily, specLookup, jsonLookup_nil,
          subscriptZero]
    · rw [hd] at hdl
      rcases dl with _ | _ | _ | _ | _ | dlf
      all_goals try simp at hdl
      obtain ⟨⟨hmn, hmx⟩, ht⟩ := hdl
      rcases (isNonemptyArrOpt_iff _).mp hmn with hm1 | ⟨m0, mrest, hm1⟩ <;>
        rcases (isNonemptyArrOpt_iff _).mp hmx with hm2 | ⟨x0, xrest, hm2⟩ <;>
        rcases (isNonemptyArrOpt_iff _).mp ht with hm3 | ⟨t0, trest, hm3⟩ <;>
        rcases hcw' with heq | ⟨cwf, heq⟩ <;>
        simp [parse_weather, dictGet, dictGetNone, heq, hd, hm1, hm2, hm3,
          specParseWeather, specCurrentTemp, specFirstOfDaily, specLookup,
          jsonLookup_nil, subscriptZero]

/-- C1 witness: the toleration predicate holds on the empty object and
the amended theorem applies to it. -/
theorem parse_weather_tolerant_refines_spec_witness :
    parseTolerant (.obj []) = true
    ∧ parse_weather (.obj []) = .ok (specParseWeather (.obj [])) :=
  ⟨rfl, parse_weather_tolerant_refines_spec (.obj []) rfl⟩

/-- C2 counterexample: with the default 4-column header, appending a
length-3 row succeeds and the subsequent `getAll` also **succeeds** —
returning the short row padded with a `None` cell — instead of raising
`SchemaMismatchError` as the claim asserts: the reader pads every row to
the sheet's column count before the length check. -/
theorem short_row_get_all_no_schema_error :
    (save_data ⟨defaultSheet, defaultSheet⟩
        (.seq [some (.str "x"), some (.str "y"), some (.str "z")])).2 = none
    ∧ get_all_data (loadedOn (defaultSheet ++
        [[some (.str "x"), some (.str "y"), some (.str "z")]])) none =
        .ok [[("current_temp", some (.str "x")), ("min_temp", some (.str "y")),
              ("max_temp", some (.str "z")), ("date", none)]] :=
  ⟨rfl, rfl⟩

/-- C2 (amended): for every workbook sheet of column count 4, `append`
accepts a row of length 3 — no column-count validation happens at write
time — and the subsequent `getAll` on the same workbook **succeeds**,
returning that row padded with a trailing `None` cell to the header's
length; `SchemaMismatchError` is not raised, because the reader pads
every row to the sheet-wide column count before comparing lengths. -/
theorem append_short_row_get_all_pads (s d : Sheet) (a b c : Cell)
    (hs : s ≠ []) (hcol : maxCol s = 4) :
    save_data ⟨s, d⟩ (.seq [a, b, c]) =
      ({ ws := s ++ [[a, b, c]], fileOnDisk := s ++ [[a, b, c]] }, none)
    ∧ get_all_data (loadedOn (s ++ [[a, b, c]])) none =
        .ok ((s.drop 1).map (fun r => pyDict ((headerRow s).zip (padRow r 4)))
             ++ [pyDict ((headerRow s).zip [a, b, c, none])]) := by
  have hlen : ∀ r ∈ [[a, b, c]], r.length ≤ maxCol s := by
    intro r hr
    simp only [List.mem_singleton] at hr
    subst hr
    simp [hcol]
  have hmc : maxCol (s ++ [[a, b, c]]) = maxCol s := maxCol_append_rows hlen
  have hh : headerRow (s ++ [[a, b, c]]) = headerRow s :=
    headerRow_append_rows hs hlen
  have hpos : 0 < s.length := List.length_pos.mpr hs
  constructor
  · rfl
  · have h2 : 2 ≤ (s ++ [[a, b, c]]).length := by
      simp only [List.length_append, List.length_cons]
      omega
    rw [get_all_two_le _ h2, hmc, hh, hcol,
      List.drop_append_of_le_length (by omega), List.map_append]
    rfl

/-- C2 witness: the amended statement applied to the freshly initialised
default workbook. -/
theorem append_short_row_get_all_pads_witness :
    defaultSheet ≠ [] ∧ maxCol defaultSheet = 4
    ∧ (save_data ⟨defaultSheet, defaultSheet⟩
         (.seq [some (.str "x"), some (.str "y"), some (.str "z")]) =
        ({ ws := defaultSheet ++
             [[some (.str "x"), some (.str "y"), some (.str "z")]],
           fileOnDisk := defaultSheet ++
             [[some (.str "x"), some (.str "y"), some (.str "z")]] },
         none)
      ∧ get_all_data (loadedOn (defaultSheet ++
          [[some (.str "x"), some (.str "y"), some (.str "z")]])) none =
          .ok ((defaultSheet.drop 1).map
              (fun r => pyDict ((headerRow defaultSheet).zip (padRow r 4)))
            ++ [pyDict ((headerRow defaultSheet).zip
                [some (.str "x"), some (.str "y"), some (.str "z"), none])])) :=
  ⟨by decide, by decide,
   append_short_row_get_all_pads defaultSheet defaultSheet _ _ _
     (by decide) (by decide)⟩

/-- C3 counterexample: with `N = 0` — the empty list vacuously satisfies
the claim's conditions — `appendMany` appends nothing to a fresh
header-only workbook, and `getAll` then raises `InvalidArgumentError`
(it computes `getTop(lastRow - 1) = getTop(0)`) instead of returning the
same zero rows. -/
theorem append_many_zero_rows_fails :
    save_rows ⟨defaultSheet, defaultSheet⟩ ([] : List PyRow) =
      ({ ws := defaultSheet, fileOnDisk := defaultSheet }, none)
    ∧ get_all_data (loadedOn defaultSheet) none = .error InvalidArgumentError :=
  ⟨rfl, rfl⟩

/-- C3 (amended): for every non-empty list of rows whose lengths equal
the sheet's column count, writing them with `appendMany` and then
reading with `getAll` returns the same rows, in the same order, appended
after the rows already present, as header-keyed mappings from which —
provided the header names are distinct (duplicate names would collapse
cells in the mapping) — every cell value is recovered in order.  With
`N = 0` rows into a workbook without data rows, `getAll` raises
`InvalidArgumentError` instead. -/
theorem append_many_round_trip (s d : Sheet) (rows : List (List Cell))
    (hs : s ≠ []) (hnd : (headerRow s).Nodup) (hr : rows ≠ [])
    (hlen : ∀ r ∈ rows, r.length = maxCol s) :
    save_rows ⟨s, d⟩ (rows.map PyRow.seq) =
      ({ ws := s ++ rows, fileOnDisk := s ++ rows }, none)
    ∧ get_all_data (loadedOn (s ++ rows)) none =
        .ok ((s.drop 1).map
            (fun r => pyDict ((headerRow s).zip (padRow r (maxCol s))))
          ++ rows.map (fun r => pyDict ((headerRow s).zip r)))
    ∧ ∀ r ∈ rows, (pyDict ((headerRow s).zip r)).map Prod.snd = r := by
  have hcpos : 1 ≤ maxCol s := by simp [maxCol]
  have hle : ∀ r ∈ rows, r.length ≤ maxCol s := fun r h => (hlen r h).le
  have hmc : maxCol (s ++ rows) = maxCol s := maxCol_append_rows hle
  have hh : headerRow (s ++ rows) = headerRow s := headerRow_append_rows hs hle
  have hW : ∀ rs : List (List Cell), (rs.map PyRow.seq).map rowCells = rs := by
    intro rs
    induction rs with
    | nil => rfl
    | cons a t ih =>
      simp only [List.map_cons, rowCells, ih]
  refine ⟨?_, ?_, ?_⟩
  · have hvalid : ∀ r ∈ rows.map PyRow.seq, validate_row r = none := by
      intro r hmem
      rcases List.mem_map.mp hmem with ⟨r', hr', rfl⟩
      have hl := hlen r' hr'
      rcases r' with _ | ⟨x, xs⟩
      · have h0 : (0 : ℕ) = maxCol s := hl
        omega
      · rfl
    have := save_rows_valid_append (rows.map PyRow.seq) ⟨s, d⟩ [] hvalid
    rw [List.append_nil] at this
    rw [this, hW rows]
    rfl
  · have h2 : 2 ≤ (s ++ rows).length := by
      have h1 := List.length_pos.mpr hs
      have h1' := List.length_pos.mpr hr
      simp only [List.length_append]
      omega
    rw [get_all_two_le _ h2, hmc, hh,
      List.drop_append_of_le_length (List.length_pos.mpr hs),
      List.map_append]
    congr 1
    congr 1
    apply List.map_congr_left
    intro r hmem
    rw [padRow_eq_self (hlen r hmem).ge]
  · intro r hmem
    have hlr : r.length = maxCol s := hlen r hmem
    have hhl : (headerRow s).length = r.length := by
      rw [headerRow_length, hlr]
    have hkeys : ((headerRow s).zip r).map Prod.fst = headerRow s :=
      List.map_fst_zip _ _ (by omega)
    rw [pyDict_of_nodup (by rw [hkeys]; exact hnd)]
    exact List.map_snd_zip _ _ (by omega)

/-- C3 witness: two 4-cell rows (one containing a `None` cell) round-trip
through the default workbook. -/
theorem append_many_round_trip_witness :
    defaultSheet ≠ [] ∧ (headerRow defaultSheet).Nodup
    ∧ ([[some (.str "a"), some (.str "b"), some (.str "c"), some (.str "d")],
        [some (.str "e"), none, some (.str "g"), some (.str "h")]] :
          List (List Cell)) ≠ []
    ∧ (∀ r ∈ ([[some (.str "a"), some (.str "b"), some (.str "c"), some (.str "d")],
        [some (.str "e"), none, some (.str "g"), some (.str "h")]] :
          List (List Cell)),
        r.length = maxCol defaultSheet)
    ∧ (save_rows ⟨defaultSheet, defaultSheet⟩
        (([[some (.str "a"), some (.str "b"), some (.str "c"), some (.str "d")],
           [some (.str "e"), none, some (.str "g"), some (.str "h")]] :
             List (List Cell)).map PyRow.seq) =
        ({ ws := defaultSheet ++
            [[some (.str "a"), some (.str "b"), some (.str "c"), some (.str "d")],
             [some (.str "e"), none, some (.str "g"), some (.str "h")]],
           fileOnDisk := defaultSheet ++
            [[some (.str "a"), some (.str "b"), some (.str "c"), some (.str "d")],
             [some (.str "e"), none, some (.str "g"), some (.str "h")]] }, none)
      ∧ get_all_data (loadedOn (defaultSheet ++
          [[some (.str "a"), some (.str "b"), some (.str "c"), some (.str "d")],
           [some (.str "e"), none, some (.str "g"), some (.str "h")]])) none =
          .ok ((defaultSheet.drop 1).map
              (fun r => pyDict ((headerRow defaultSheet).zip
                (padRow r (maxCol defaultSheet))))
            ++ ([[some (.str "a"), some (.str "b"), some (.str "c"), some (.str "d")],
                 [some (.str "e"), none, some (.str "g"), some (.str "h")]] :
                   List (List Cell)).map
                (fun r => pyDict ((headerRow defaultSheet).zip r)))
      ∧ ∀ r ∈ ([[some (.str "a"), some (.str "b"), some (.str "c"), some (.str "d")],
          [some (.str "e"), none, some (.str "g"), some (.str "h")]] :
            List (List Cell)),
          (pyDict ((headerRow defaultSheet).zip r)).map Prod.snd = r) :=
  ⟨by decide, by decide, by decide, by decide,
   append_many_round_trip defaultSheet defaultSheet _
     (by decide) (by decide) (by decide) (by decide)⟩

/-- C4 counterexample: on a sheet containing only the header row,
`getAll` does not return the empty sequence — it raises
`InvalidArgumentError`, because `getTop(lastRow - 1)` is `getTop(0)`. -/
theorem get_all_header_only_raises :
    get_all_data (loadedOn headerOnly) none = .error InvalidArgumentError := rfl

/-- C4 (amended): for every opened workbook sheet, `getAll` is equivalent
to `getTop(lastRow - 1)`, and on every sheet with at least one data row
it returns every data row (rows 2..lastRow as header-keyed mappings); on
a sheet containing only the header row it raises `InvalidArgumentError`
rather than returning the empty sequence. -/
theorem get_all_eq_get_top (s : Sheet) :
    get_all_data (loadedOn s) none =
      get_data (loadedOn s) ((maxRow s : Int) - 1) true none
    ∧ (2 ≤ s.length → get_all_data (loadedOn s) none =
        .ok ((s.drop 1).map
          (fun r => pyDict ((headerRow s).zip (padRow r (maxCol s)))))) :=
  ⟨rfl, fun h => get_all_two_le s h⟩

/-- C4 witness: the amended statement applied to the demonstration sheet
with five data rows. -/
theorem get_all_eq_get_top_witness :
    (get_all_data (loadedOn demoSheet) none =
      get_data (loadedOn demoSheet) ((maxRow demoSheet : Int) - 1) true none)
    ∧ 2 ≤ demoSheet.length
    ∧ get_all_data (loadedOn demoSheet) none =
        .ok ((demoSheet.drop 1).map
          (fun r => pyDict ((headerRow demoSheet).zip
            (padRow r (maxCol demoSheet))))) :=
  ⟨(get_all_eq_get_top demoSheet).1, by decide,
   (get_all_eq_get_top demoSheet).2 (by decide)⟩

/-- C5: for every opened sheet and integer `n`, `getTop(n)` raises
`InvalidArgumentError` when `n < 1`, and otherwise returns exactly the
rows at 1-indexed positions `2..min(n + 1, lastRow)` in sheet order, as
header-keyed mappings — the header at row 1 is never among them. -/
theorem get_top_spec (s : Sheet) (n : Int) :
    (n < 1 → get_data (loadedOn s) n true none = .error InvalidArgumentError)
    ∧ (1 ≤ n → get_data (loadedOn s) n true none =
        .ok ((List.range' 2 ((min (n + 1) (maxRow s : Int)).toNat - 1)).map
          (fun i => pyDict ((headerRow s).zip
            (padRow (s.getD (i - 1) []) (maxCol s)))))) :=
  ⟨fun h => get_data_lt_one s n true h, fun h => get_top_ok s n h⟩

/-- C5 witness: `getTop(2)` on the demonstration sheet returns the rows
at positions 2..3. -/
theorem get_top_spec_witness :
    (1 : Int) ≤ 2 ∧ get_data (loadedOn demoSheet) 2 true none =
      .ok ((List.range' 2
              ((min ((2 : Int) + 1) (maxRow demoSheet : Int)).toNat - 1)).map
        (fun i => pyDict ((headerRow demoSheet).zip
          (padRow (demoSheet.getD (i - 1) []) (maxCol demoSheet))))) :=
  ⟨by decide, (get_top_spec demoSheet 2).2 (by decide)⟩

/-- C6 counterexample: on a sheet with a header plus 5 data rows,
`lastRow` is 6 and `getBottom(2)` returns the rows at positions 5 and 6
(the last two data rows, marked `r5` and `r6` here) — not "rows 6 and 7"
as the claim's example says; there is no row 7. -/
theorem get_bottom_two_of_five :
    get_data (loadedOn demoSheet) 2 false none =
      .ok [[("current_temp", some (.str "r5")), ("min_temp", none),
            ("max_temp", none), ("date", none)],
           [("current_temp", some (.str "r6")), ("min_temp", none),
            ("max_temp", none), ("date", none)]] := rfl

/-- C6 (amended): for every opened sheet and integer `n`, `getBottom(n)`
raises `InvalidArgumentError` when `n < 1`, and otherwise returns exactly
the rows at positions `max(2, lastRow - n + 1)..lastRow` in sheet order;
on a sheet with a header plus 5 data rows (`lastRow = 6`), `getBottom(2)`
returns rows 5 and 6 — the claim's "rows 6 and 7" example contradicts
its own formula. -/
theorem get_bottom_spec (s : Sheet) (n : Int) :
    (n < 1 → get_data (loadedOn s) n false none = .error InvalidArgumentError)
    ∧ (1 ≤ n → get_data (loadedOn s) n false none =
        .ok ((List.range' (max 2 ((maxRow s : Int) - n + 1)).toNat
                (maxRow s + 1 -
                  (max 2 ((maxRow s : Int) - n + 1)).toNat)).map
          (fun i => pyDict ((headerRow s).zip
            (padRow (s.getD (i - 1) []) (maxCol s)))))) :=
  ⟨fun h => get_data_lt_one s n false h, fun h => get_bottom_ok s n h⟩

/-- C6 witness: `getBottom(2)` on the demonstration sheet, via the
proved position formula. -/
theorem get_bottom_spec_witness :
    (1 : Int) ≤ 2 ∧ get_data (loadedOn demoSheet) 2 false none =
      .ok ((List.range' (max 2 ((maxRow demoSheet : Int) - 2 + 1)).toNat
              (maxRow demoSheet + 1 -
                (max 2 ((maxRow demoSheet : Int) - 2 + 1)).toNat)).map
        (fun i => pyDict ((headerRow demoSheet).zip
          (padRow (demoSheet.getD (i - 1) []) (maxCol demoSheet))))) :=
  ⟨by decide, (get_bottom_spec demoSheet 2).2 (by decide)⟩

/-- C7: for all latitude/longitude values (entering the builder as their
ASCII `str()` renderings), the query string of `build(lat, lon)` decodes
back to exactly the mapping `{latitude: lat, longitude: lon,
current_weather: "true", daily: "temperature_2m_min,temperature_2m_max",
timezone: "auto"}` in that fixed order (the query is a pure function of
the inputs, so it is deterministic and order-stable); the comma in the
daily-fields value is percent-encoded as `%2C`; and the URL is the fixed
endpoint followed by exactly that query string. -/
theorem build_openmeteo_url_spec (latS lonS : String)
    (hlat : ∀ c ∈ latS.data, c.toNat < 128)
    (hlon : ∀ c ∈ lonS.data, c.toNat < 128) :
    decodeQuery (buildQuery latS lonS) =
      [("latitude".data, latS.data), ("longitude".data, lonS.data),
       ("current_weather".data, "true".data),
       ("daily".data, "temperature_2m_min,temperature_2m_max".data),
       ("timezone".data, "auto".data)]
    ∧ quotePlus "temperature_2m_min,temperature_2m_max".data =
        "temperature_2m_min%2Ctemperature_2m_max".data
    ∧ (build_openmeteo_url latS lonS).data =
        "https://api.open-meteo.com/v1/forecast?".data ++
          buildQuery latS lonS := by
  have h1 : ∀ c ∈ "latitude".data, c.toNat < 128 := by decide
  have h2 : ∀ c ∈ "longitude".data, c.toNat < 128 := by decide
  have h3 : ∀ c ∈ "current_weather".data, c.toNat < 128 := by decide
  have h4 : ∀ c ∈ "true".data, c.toNat < 128 := by decide
  have h5 : ∀ c ∈ "daily".data, c.toNat < 128 := by decide
  have h6 : ∀ c ∈ "temperature_2m_min,temperature_2m_max".data,
      c.toNat < 128 := by decide
  have h7 : ∀ c ∈ "timezone".data, c.toNat < 128 := by decide
  have h8 : ∀ c ∈ "auto".data, c.toNat < 128 := by decide
  have hAmp : ∀ (k v : List Char), (∀ c ∈ k, c.toNat < 128) →
      (∀ c ∈ v, c.toNat < 128) → '&' ∉ encPair k v := by
    intro k v hk hv hmem
    rcases List.mem_append.mp hmem with hm | hm
    · exact (notin_quotePlus hk).1 hm
    · rcases List.mem_cons.mp hm with he | hm
      · exact absurd he (by decide)
      · exact (notin_quotePlus hv).1 hm
  refine ⟨?_, by decide, ?_⟩
  · have hq : buildQuery latS lonS =
        encPair "latitude".data latS.data ++ '&' ::
          (encPair "longitude".data lonS.data ++ '&' ::
            (encPair "current_weather".data "true".data ++ '&' ::
              (encPair "daily".data
                  "temperature_2m_min,temperature_2m_max".data ++ '&' ::
                encPair "timezone".data "auto".data))) := rfl
    rw [hq]
    unfold decodeQuery
    rw [splitOnSep_append (hAmp _ _ h1 hlat) _,
      splitOnSep_append (hAmp _ _ h2 hlon) _,
      splitOnSep_append (hAmp _ _ h3 h4) _,
      splitOnSep_append (hAmp _ _ h5 h6) _,
      splitOnSep_of_not_mem (hAmp _ _ h7 h8)]
    simp only [List.map_cons, List.map_nil]
    rw [decodePair_enc h1 hlat, decodePair_enc h2 hlon, decodePair_enc h3 h4,
      decodePair_enc h5 h6, decodePair_enc h7 h8]
  · rfl

/-- C7 witness: the docstring's example coordinates round-trip through
encoding and decoding. -/
theorem build_openmeteo_url_spec_witness :
    (∀ c ∈ "-25.5167".data, c.toNat < 128)
    ∧ (∀ c ∈ "-54.6167".data, c.toNat < 128)
    ∧ (decodeQuery (buildQuery "-25.5167" "-54.6167") =
        [("latitude".data, "-25.5167".data),
         ("longitude".data, "-54.6167".data),
         ("current_weather".data, "true".data),
         ("daily".data, "temperature_2m_min,temperature_2m_max".data),
         ("timezone".data, "auto".data)]
      ∧ quotePlus "temperature_2m_min,temperature_2m_max".data =
          "temperature_2m_min%2Ctemperature_2m_max".data
      ∧ (build_openmeteo_url "-25.5167" "-54.6167").data =
          "https://api.open-meteo.com/v1/forecast?".data ++
            buildQuery "-25.5167" "-54.6167") :=
  ⟨by decide, by decide,
   build_openmeteo_url_spec "-25.5167" "-54.6167" (by decide) (by decide)⟩

/-- C8: `parse` on the spec's example document yields
`(21.5, 15.0, 25.0, "2025-01-01")`, in the order current temperature,
daily min, daily max, date. -/
theorem parse_weather_example_doc :
    parse_weather (.obj
      [("current_weather", .obj [("temperature", .num (21.5 : ℚ))]),
       ("daily", .obj
         [("temperature_2m_min", .arr [.num (15.0 : ℚ)]),
          ("temperature_2m_max", .arr [.num (25.0 : ℚ)]),
          ("time", .arr [.str "2025-01-01"])])]) =
      .ok [.num (21.5 : ℚ), .num (15.0 : ℚ), .num (25.0 : ℚ),
           .str "2025-01-01"] := rfl

/-- C9: `open` is idempotent — opening an already-open Reader leaves the
loaded workbook identical — and every read operation (`get`, `getTop`,
`getBottom`, `getAll`, sheet lookup) performed before `open` fails with
`NotLoadedError`. -/
theorem open_idempotent_reads_require_load :
    (∀ g : DataGetter, open_file (open_file g) = open_file g)
    ∧ (∀ (fc : Workbook) (name : Option String),
        get_sheet ⟨fc, none⟩ name = .error NotLoadedError)
    ∧ (∀ (fc : Workbook) (n : Int) (ft : Bool) (sh : Option String),
        get_data ⟨fc, none⟩ n ft sh = .error NotLoadedError)
    ∧ (∀ (fc : Workbook) (sh : Option String),
        get_all_data ⟨fc, none⟩ sh = .error NotLoadedError) :=
  ⟨fun g => by rcases g with ⟨fc, wb⟩; cases wb <;> rfl,
   fun fc name => rfl,
   fun fc n ft sh => rfl,
   fun fc sh => rfl⟩

/-- C10: when the row at position `k` (1-indexed) is the first invalid
one, `appendMany` stops with `InvalidRowError`, the rows before it are
already appended to the in-memory sheet, and the workbook is never
saved — the on-disk file is unchanged; on the empty sequence it appends
nothing but still persists the workbook. -/
theorem save_rows_stops_at_first_invalid (st : DataSaver) (vs : List PyRow)
    (b : PyRow) (rest : List PyRow) (e : PyErr)
    (hv : ∀ r ∈ vs, validate_row r = none)
    (hb : validate_row b = some e) :
    save_rows st (vs ++ b :: rest) =
      ({ ws := st.ws ++ vs.map rowCells, fileOnDisk := st.fileOnDisk }, some e)
    ∧ save_rows st [] = ({ ws := st.ws, fileOnDisk := st.ws }, none) := by
  constructor
  · rw [save_rows_valid_append vs st (b :: rest) hv]
    simp only [save_rows, hb]
  · rfl

/-- C10 witness: one valid row, then an empty (invalid) row: the valid
row is in memory, the disk is untouched, and the error is
`InvalidRowError`. -/
theorem save_rows_stops_at_first_invalid_witness :
    validate_row (PyRow.seq []) = some (InvalidRowError "list")
    ∧ (save_rows ⟨defaultSheet, defaultSheet⟩
        [PyRow.seq [some (.str "a")], PyRow.seq []] =
        ({ ws := defaultSheet ++ [[some (.str "a")]],
           fileOnDisk := defaultSheet }, some (InvalidRowError "list"))
      ∧ save_rows ⟨defaultSheet, defaultSheet⟩ [] =
          ({ ws := defaultSheet, fileOnDisk := defaultSheet }, none)) :=
  ⟨rfl, save_rows_stops_at_first_invalid ⟨defaultSheet, defaultSheet⟩
    [PyRow.seq [some (.str "a")]] (PyRow.seq []) [] (InvalidRowError "list")
    (by intro r hr
        simp only [List.mem_singleton] at hr
        subst hr
        rfl)
    rfl⟩

end Weathergraph
